import Mathlib

/-!
Verification development for the SatelliteNetworkSimulator topology control
plane.  The Python sources (`emulation/dynamics_service.py`,
`emulation/controller.py`, `emulation/node_agent.py`,
`emulation/frr_config_topo.py`) are shallowly embedded below: pure numeric
computations over floats are modelled over `ℚ` (or with an explicit
square-root oracle where the code takes `** 0.5`), the stateful services are
modelled as explicit state-passing functions, and external effects (HTTP
agent RPCs, the document store, the OS `ip` tool, Python's salted string
hash, skyfield's topocentric geometry) are modelled as explicit parameters.
-/

namespace SatNet

/-! ## Delay computation (`calculate_link_delay`, dynamics_service.py:440-463
and controller.py:1120-1139; both copies are textually identical). -/

/-- Speed of light in km/s, the literal `299792.458` of the source. -/
def SPEED_OF_LIGHT : ℚ := 299792458 / 1000

/-- Fixed processing delay in ms, the literal `1` of the source. -/
def PROCESSING_DELAY : ℚ := 1

/-- Python's `round(x, 3)`: round to three decimal places.  Modelled with
Mathlib's `round` (half away from even differs from Python only at exact
ties, which none of the theorems below depend on). -/
def round3 (x : ℚ) : ℚ := ((round (x * 1000) : ℤ) : ℚ) / 1000

/-- `calculate_link_delay(distance_km)`: propagation delay at the speed of
light plus a fixed 1 ms processing term, rounded to three decimals. -/
def calculate_link_delay (distance_km : ℚ) : ℚ :=
  round3 (distance_km / SPEED_OF_LIGHT * 1000 + PROCESSING_DELAY)

/-- The delay formula exactly as the spec words it:
`round(distance_km/299792.458*1000 + 1.0, 3)`. -/
def spec_delay_formula (distance_km : ℚ) : ℚ :=
  round3 (distance_km / (299792458 / 1000) * 1000 + 1)

/-! ## ISL up/down logic (`SatelliteDynamics.calculate_satellite_links`,
dynamics_service.py:310-382).  Only the fields feeding the `up` flag are
embedded; the delay field of the emitted link is the (independent)
`calculate_link_delay` above. -/

/-- A satellite as used by the link evaluator: its name and current
sub-satellite latitude and longitude in degrees. -/
structure Satellite where
  name : String
  lat : ℚ
  lon : ℚ
deriving DecidableEq, Repr

/-- dynamics_service.py:321-324: a satellite keeps its inter-plane links only
while `not (lat > inclination - 2 or lat < -inclination + 2)`. -/
def inter_plane_status (inclination : ℚ) (s : Satellite) : Bool :=
  if s.lat > inclination - 2 ∨ s.lat < -inclination + 2 then false else true

/-- Python's `str.startswith(p)`, modelled over the character list of the
string (the byte-position-based `String.startsWith` of core Lean is not
kernel-reducible, so the claims' concrete instances could not be
evaluated through it). -/
def starts_with (s p : String) : Bool := p.data.isPrefixOf s.data

/-- A graph edge between two satellites with its `inter_ring` tag. -/
structure SatEdge where
  node1 : String
  node2 : String
  inter_ring : Bool
deriving DecidableEq, Repr

/-- `next((s for s in self.satellites if s.name == node), None)`. -/
def find_sat (sats : List Satellite) (n : String) : Option Satellite :=
  sats.find? (fun s => s.name == n)

/-- dynamics_service.py:330-340: the `up` flag computed for one edge whose
two endpoint names start with `R`: `True` unless the edge is inter-ring and
both endpoint satellites are found, in which case it is the conjunction of
their inter-plane statuses. -/
def link_status (inclination : ℚ) (sats : List Satellite) (e : SatEdge) : Bool :=
  if e.inter_ring then
    match find_sat sats e.node1, find_sat sats e.node2 with
    | some s1, some s2 => inter_plane_status inclination s1 && inter_plane_status inclination s2
    | _, _ => true
  else true

/-- dynamics_service.py:327-380: the emitted link list, restricted to edges
between two satellite nodes (names starting with `R`), each carrying the
`up` flag of `link_status`. -/
def calculate_satellite_links (inclination : ℚ) (sats : List Satellite)
    (edges : List SatEdge) : List (String × String × Bool) :=
  (edges.filter (fun e => starts_with e.node1 (r"R") && starts_with e.node2 (r"R"))).map
    (fun e => (e.node1, e.node2, link_status inclination sats e))

/-! ## OSPF area assignment (`get_ospf_area`, frr_config_topo.py:104-112).
Python's `hash` on strings is salted per interpreter process (PEP 456);
the per-run hash function is therefore an explicit parameter `pyhash`.
`hash(name) % 254` is non-negative in Python, so the hash is modelled with
values in `ℕ` (taking `% 254` of a negative Python int gives the same
non-negative representative). -/

/-- `get_ospf_area(name)`: ground stations and vessels (names starting with
`G_` or `V_`) get area `0.0.0.{hash(name) % 254 + 1}`; everything else gets
the backbone area `0.0.0.0`. -/
def get_ospf_area (pyhash : String → ℕ) (name : String) : String :=
  if starts_with name (r"G_") = true ∨ starts_with name (r"V_") = true then
    (r"0.0.0.") ++ toString (pyhash name % 254 + 1)
  else
    (r"0.0.0.0")

/-! ## Uplink candidate computation (`SatelliteDynamics.nearby` and
`SatelliteDynamics.calculate_uplinks`, dynamics_service.py:236-308).
Skyfield's topocentric geometry (`(sat - station).at(t).altaz()`) is external
library code; the altitude angle and slant range it returns are modelled as
explicit oracle parameters `alt` and `dist`. -/

/-- A ground station or vessel as seen by the uplink evaluator: name and
current geographic position in degrees. -/
structure Station where
  name : String
  lat : ℚ
  lon : ℚ
deriving DecidableEq, Repr

/-- `MIN_ELEVATION = 15` degrees, the class constant used as the default
`min_elevation`. -/
def MIN_ELEVATION : ℚ := 15

/-- dynamics_service.py:236-242: the coarse visibility filter, true iff the
satellite's longitude and latitude are each strictly within 20 degrees of
the station's. -/
def nearby (g : Station) (s : Satellite) : Bool :=
  if s.lon > g.lon - 20 ∧ s.lon < g.lon + 20 ∧ s.lat > g.lat - 20 ∧ s.lat < g.lat + 20
  then true else false

/-- One emitted candidate uplink (`simapi.UpLink` less the int truncation of
the distance, which the claims do not touch). -/
structure UpLinkOut where
  sat_node : String
  distance : ℚ
  delay : ℚ
deriving DecidableEq, Repr

/-- dynamics_service.py:263-294, the inner loop of `calculate_uplinks` for a
single station: for every satellite passing the `nearby` filter whose
topocentric altitude strictly exceeds `min_elevation`, emit an uplink whose
delay comes from `calculate_link_delay` applied to the slant range. -/
def station_uplinks (min_elevation : ℚ) (alt dist : Station → Satellite → ℚ)
    (sats : List Satellite) (g : Station) : List UpLinkOut :=
  (sats.filter (fun s => nearby g s && decide (alt g s > min_elevation))).map
    (fun s => ⟨s.name, dist g s, calculate_link_delay (dist g s)⟩)

/-! ## Graph annotation (`annotate_graph`, frr_config_topo.py:16-81).
The node/edge/uplink-pool numbering is embedded exactly: nodes take
addresses `0x0A010000 + count` with `count` starting at 1 and stepping by 2,
wrapped in an interface with prefix length **31**; edges take `/30` subnets
at `0x0A0F0000 + count*4` with `count` starting at 1 and stepping by 1; the
ground/vessel uplink pools continue the same edge counter, four `/30`
subnets per station.  The node-type selectors of the `torus_topo` module are
not part of the given sources; they are modelled from the spec (below). -/

/-- An IPv4 interface assignment: address plus prefix length, the
`ipaddress.IPv4Interface((ip, plen))` of the source as plain naturals. -/
structure IfaceAddr where
  addr : ℕ
  plen : ℕ
deriving DecidableEq, Repr

/-- Modelled from the spec: the node variant tags of the `torus_topo`
module (satellite / ground / vessel), whose selector functions
`torus_topo.ground_stations` and `torus_topo.vessels` are not among the
given sources.  The spec's §3 data model gives each node exactly one of
these variants. -/
inductive NodeType where
  | satellite
  | ground
  | vessel
deriving DecidableEq, Repr

/-- A graph node: a name plus its variant tag. -/
structure GNode where
  name : String
  typ : NodeType
deriving DecidableEq, Repr

/-- A topology graph as `annotate_graph` consumes it: nodes and edges in
their (deterministic) iteration order. -/
structure Graph where
  nodes : List GNode
  edges : List (String × String)
deriving DecidableEq, Repr

/-- `0x0A010000`, the base of the node (loopback) address range. -/
def NODE_BASE : ℕ := 0x0A010000

/-- `0x0A0F0000`, the base of the link subnet range. -/
def LINK_BASE : ℕ := 0x0A0F0000

/-- frr_config_topo.py:21-28: each node in order receives
`IPv4Interface((0x0A010000 + count, 31))`, `count` starting at 1 and
incremented by 2. -/
def annotate_nodes : List GNode → ℕ → List (String × IfaceAddr)
  | [], _ => []
  | n :: rest, count => (n.name, ⟨NODE_BASE + count, 31⟩) :: annotate_nodes rest (count + 2)

/-- frr_config_topo.py:30-36: each edge in order receives the `/30` network
`IPv4Network((0x0A0F0000 + count*4, 30))`, `count` starting at 1 and
incremented by 1.  Only the network base address is recorded; the prefix
length is the constant 30. -/
def annotate_edges : List (String × String) → ℕ → List ((String × String) × ℕ)
  | [], _ => []
  | e :: rest, count => (e, LINK_BASE + count * 4) :: annotate_edges rest (count + 1)

/-- frr_config_topo.py:66-81: each ground station, then each vessel, is
given a pool of four `/30` networks drawn from the same counter the edge
loop left off at. -/
def uplink_pools : List GNode → ℕ → List (String × List ℕ)
  | [], _ => []
  | n :: rest, count =>
      (n.name, [LINK_BASE + count * 4, LINK_BASE + (count + 1) * 4,
                LINK_BASE + (count + 2) * 4, LINK_BASE + (count + 3) * 4])
        :: uplink_pools rest (count + 4)

/-- The annotation `annotate_graph` attaches to a graph: per-node loopback
interfaces, per-edge `/30` subnet bases, and per-ground/vessel uplink
pools of `/30` subnet bases. -/
structure Ann where
  nodeIps : List (String × IfaceAddr)
  edgeNets : List ((String × String) × ℕ)
  uplinkNets : List (String × List ℕ)
deriving DecidableEq, Repr

/-- `annotate_graph(graph)` (frr_config_topo.py:16-81): node addressing,
edge subnets, and uplink pools.  The uplink loop iterates ground stations
first and vessels second (the two `node_type` selectors in order), with the
counter continuing from `edges.length + 1`. -/
def annotate_graph (g : Graph) : Ann :=
  { nodeIps := annotate_nodes g.nodes 1
    edgeNets := annotate_edges g.edges 1
    uplinkNets := uplink_pools
      (g.nodes.filter (fun n => n.typ == NodeType.ground)
        ++ g.nodes.filter (fun n => n.typ == NodeType.vessel))
      (g.edges.length + 1) }

/-- Two `/30` networks, given by their base addresses, are disjoint: their
four-address spans do not overlap. -/
def disjoint30 (a b : ℕ) : Prop := a + 4 ≤ b ∨ b + 4 ≤ a

/-! ## Vessel motion (`MovingStation.update_position`,
dynamics_service.py:90-142).  The float expression `x ** 0.5` is modelled by
an explicit square-root oracle `rt : ℚ → ℚ`; every theorem below either
hypothesises or exhibits the square-root property of `rt` at the two
arguments the function evaluates it on. -/

/-- A waypoint of a vessel's journey. -/
structure Waypoint where
  lat : ℚ
  lon : ℚ
deriving DecidableEq, Repr

/-- The mutable state of a `MovingStation`: current position, waypoint
polyline, traversal cursor, and the constant `SPEED = 1.0` degrees per
update (kept as a field, as in the dataclass). -/
structure MovingStation where
  lat : ℚ
  lon : ℚ
  waypoints : List Waypoint
  current_waypoint_index : ℕ
  next_waypoint_index : ℕ
  moving_forward : Bool
  SPEED : ℚ
deriving DecidableEq, Repr

/-- dynamics_service.py:118-139: the cursor update applied once the new
position is within one `SPEED` step of the next waypoint. -/
def advance_cursor (v : MovingStation) : MovingStation :=
  if v.moving_forward then
    if v.next_waypoint_index == v.waypoints.length - 1 then
      { v with moving_forward := false,
               current_waypoint_index := v.next_waypoint_index,
               next_waypoint_index := v.next_waypoint_index - 1 }
    else
      { v with current_waypoint_index := v.next_waypoint_index,
               next_waypoint_index := v.next_waypoint_index + 1 }
  else
    if v.next_waypoint_index == 0 then
      { v with moving_forward := true,
               current_waypoint_index := 0,
               next_waypoint_index := 1 }
    else
      { v with current_waypoint_index := v.next_waypoint_index,
               next_waypoint_index := v.next_waypoint_index - 1 }

/-- dynamics_service.py:100-110: the per-step movement vector
`(move_lat, move_lon)`, the vector from the current waypoint to the next
normalized to length `SPEED` (zero if the two waypoints coincide). -/
def step_move (rt : ℚ → ℚ) (v : MovingStation) : ℚ × ℚ :=
  let current_wp := v.waypoints.getD v.current_waypoint_index ⟨0, 0⟩
  let next_wp := v.waypoints.getD v.next_waypoint_index ⟨0, 0⟩
  let delta_lat := next_wp.lat - current_wp.lat
  let delta_lon := next_wp.lon - current_wp.lon
  let distance := rt (delta_lat ^ 2 + delta_lon ^ 2)
  (if distance > 0 then delta_lat / distance * v.SPEED else 0,
   if distance > 0 then delta_lon / distance * v.SPEED else 0)

/-- dynamics_service.py:117: `new_distance`, the distance from the stepped
position to the next waypoint. -/
def new_dist (rt : ℚ → ℚ) (v : MovingStation) : ℚ :=
  let next_wp := v.waypoints.getD v.next_waypoint_index ⟨0, 0⟩
  rt ((v.lat + (step_move rt v).1 - next_wp.lat) ^ 2
      + (v.lon + (step_move rt v).2 - next_wp.lon) ^ 2)

/-- `MovingStation.update_position` (dynamics_service.py:90-142): one step of
constant-speed movement along the current polyline segment.  Note the
position is always set to `current + move`; it is never snapped to the
waypoint itself. -/
def update_position (rt : ℚ → ℚ) (v : MovingStation) : MovingStation :=
  if v.waypoints.length < 2 then v
  else
    let new_lat := v.lat + (step_move rt v).1
    let new_lon := v.lon + (step_move rt v).2
    let v' := if new_dist rt v < v.SPEED then advance_cursor v else v
    { v' with lat := new_lat, lon := new_lon }

/-! ## Node agent (`node_agent.py`).  The agent's `node_config` dictionary
and the relevant slice of the container OS (the set of network interfaces
and the addresses assigned to them by the `ip` tool) are modelled as
explicit state.  `ip addr add A dev I` exits non-zero when `A` is already
assigned to `I` (Linux reports `RTNETLINK answers: File exists`), and the
source runs it with `check=True`, so a duplicate add raises and is caught
by the surrounding `except`. -/

/-- One OS network interface: its name and the `(address, netmask)` pairs
assigned to it. -/
structure OsIface where
  name : String
  addrs : List (String × String)
deriving DecidableEq, Repr

/-- The agent's record of one configured interface
(`node_config['interfaces'][name]`). -/
structure IfaceCfg where
  ip : String
  netmask : String
  status : String
deriving DecidableEq, Repr

/-- One uplink entry of `node_config['uplinks']`. -/
structure AgentUplink where
  satellite : String
  local_ip : String
  remote_ip : String
  interface : String
  distance : ℚ
  delay : ℚ
  dflt : Bool
deriving DecidableEq, Repr

/-- The node agent state relevant to the interface and uplink endpoints:
the OS interface table plus `node_config['interfaces']` and
`node_config['uplinks']`. -/
structure AgentState where
  osIfaces : List OsIface
  interfaces : List (String × IfaceCfg)
  uplinks : List AgentUplink
deriving DecidableEq, Repr

/-- Look up an OS interface by name. -/
def os_find (s : AgentState) (n : String) : Option OsIface :=
  s.osIfaces.find? (fun i => i.name == n)

/-- Replace the entry for key `k` in an association list (or append it). -/
def assoc_set {α : Type} (l : List (String × α)) (k : String) (v : α) : List (String × α) :=
  if l.any (fun p => p.1 == k) then
    l.map (fun p => if p.1 == k then (k, v) else p)
  else l ++ [(k, v)]

/-- `configure_interface(name, ip_address, netmask)`
(node_agent.py:124-144): create the interface if missing (`ip link add`),
then run `ip addr add ip/netmask dev name` with `check=True` — which fails
with `File exists` if that address is already assigned — and only on
success record the interface in `node_config['interfaces']` and return
`True`.  The raised `CalledProcessError` of a duplicate add is caught and
turned into a `False` return, leaving `node_config` untouched. -/
def configure_interface (s : AgentState) (name ip_address netmask : String) :
    Bool × AgentState :=
  let s1 := match os_find s name with
    | some _ => s
    | none => { s with osIfaces := s.osIfaces ++ [⟨name, []⟩] }
  match os_find s1 name with
  | none => (false, s1)
  | some iface =>
    if iface.addrs.contains (ip_address, netmask) then
      (false, s1)
    else
      let s2 := { s1 with
        osIfaces := s1.osIfaces.map (fun i =>
          if i.name == name then ⟨i.name, i.addrs ++ [(ip_address, netmask)]⟩ else i),
        interfaces := assoc_set s1.interfaces name ⟨ip_address, netmask, (r"up")⟩ }
      (true, s2)

/-- `configure_uplink_endpoint` (node_agent.py:274-328), the state change on
a ground-station or vessel node: any existing entry for the named satellite
is removed from `node_config['uplinks']` and the new entry is appended.
(The route/tc side effects do not touch `node_config`.) -/
def configure_uplink (uplinks : List AgentUplink) (u : AgentUplink) : List AgentUplink :=
  (uplinks.filter (fun x => !(x.satellite == u.satellite))) ++ [u]

/-! ## Controller link lifecycle (`setup_link`, `setup_uplink`,
`update_link_state`, controller.py:264-559).  Each HTTP agent RPC is
modelled by a Bool telling whether that call came back with status 200 and
`success=true`; a non-200 status, a `success=false` body and a raised
exception all take the same early-return path in the source, so one Bool
per call captures all three failure modes.  The Mongo `links` collection is
the explicit store. -/

/-- One ISL record of the `links` collection (the fields the claims
touch). -/
structure LinkRecord where
  node1 : String
  node2 : String
  delay : ℚ
  status : String
deriving DecidableEq, Repr

/-- The unordered-pair match used by `update_link_state`'s Mongo query. -/
def link_matches (n1 n2 : String) (r : LinkRecord) : Bool :=
  (r.node1 == n1 && r.node2 == n2) || (r.node1 == n2 && r.node2 == n1)

/-- Mongo `update_one`: rewrite the first record matching `p` with `f`. -/
def update_first (p : LinkRecord → Bool) (f : LinkRecord → LinkRecord) :
    List LinkRecord → List LinkRecord
  | [] => []
  | r :: rest => if p r then f r :: rest else r :: update_first p f rest

/-- `setup_link(node1, node2, subnet, delay)` (controller.py:264-366):
`hosts` is the number of usable host addresses of the subnet (2 for a /30);
`r1 r2` are the two `config/interface` RPCs, `r3 r4` the two `config/link`
RPCs, issued in that order with an early `False` return on the first
failure; the record is inserted only after all four succeed. -/
def setup_link (store : List LinkRecord) (node1 node2 : String) (delay : ℚ)
    (hosts : ℕ) (r1 r2 r3 r4 : Bool) : Bool × List LinkRecord :=
  if hosts < 2 then (false, store)
  else if !r1 then (false, store)
  else if !r2 then (false, store)
  else if !r3 then (false, store)
  else if !r4 then (false, store)
  else (true, store ++ [⟨node1, node2, delay, (r"up")⟩])

/-- `update_link_state(node1, node2, up, delay)` (controller.py:479-559):
look the link up by unordered endpoint pair (not found returns `False`);
per endpoint issue a `config/interface` RPC (`i1`, `i2`) and, when a delay
is given, a `config/link` RPC (`d1`, `d2`), returning `False` on the first
failure; only after all issued calls succeed are the status and (when
given) delay written back to the store. -/
def update_link_state (store : List LinkRecord) (node1 node2 : String)
    (up : Bool) (delay : Option ℚ) (i1 d1 i2 d2 : Bool) : Bool × List LinkRecord :=
  if (store.find? (link_matches node1 node2)).isNone then (false, store)
  else if !i1 then (false, store)
  else if delay.isSome && !d1 then (false, store)
  else if !i2 then (false, store)
  else if delay.isSome && !d2 then (false, store)
  else
    let new_status := if up then (r"up") else (r"down")
    let store1 := update_first (link_matches node1 node2)
      (fun r => { r with status := new_status }) store
    let store2 := match delay with
      | some d => update_first (link_matches node1 node2)
          (fun r => { r with delay := d }) store1
      | none => store1
    (true, store2)

/-! ## Controller uplink lifecycle (`setup_uplink` controller.py:369-476,
`provision_network` controller.py:729-760, and the uplink reconciliation of
`update_positions` controller.py:941-986).  Uplink records are kept in
their own list; the four agent RPCs of one `setup_uplink` are collapsed
into a single Bool (`rpc_ok`) since only insertion-versus-no-insertion
matters to the default-flag claims, the early-return structure being the
same as in `setup_link` above. -/

/-- One uplink record of the `links` collection.  The source field
`default` is called `dflt` here (`default` names the `Inhabited` projection
in Lean). -/
structure UplinkRecord where
  ground_station : String
  satellite : String
  distance : ℚ
  delay : ℚ
  dflt : Bool
  status : String
deriving DecidableEq, Repr

/-- `setup_uplink(ground_station, satellite, subnet, distance, delay,
default)` (controller.py:369-476): on RPC success insert the record with
the `default` flag exactly as passed; on any RPC failure insert nothing and
return `False`. -/
def setup_uplink (store : List UplinkRecord) (ground satellite : String)
    (distance delay : ℚ) (dflt : Bool) (rpc_ok : Bool) : Bool × List UplinkRecord :=
  if rpc_ok then (true, store ++ [⟨ground, satellite, distance, delay, dflt, (r"up")⟩])
  else (false, store)

/-- controller.py:944-964: remove every record of ground/vessel `g` whose
satellite is not in the current candidate set. -/
def prune_uplinks (store : List UplinkRecord) (g : String) (cands : List String) :
    List UplinkRecord :=
  store.filter (fun r => !(r.ground_station == g && !(cands.contains r.satellite)))

/-- controller.py:967-985, one candidate of the reconciliation loop: either
refresh the existing record via `update_link_state` (which never touches
the `default` flag; modelled as leaving the record as is) or create it via
`setup_uplink` with the `default` argument omitted, i.e. `False`.  `okf`
tells which creations' RPCs succeed. -/
def reconcile_step (g : String) (okf : String → Bool) (st : List UplinkRecord)
    (c : String × ℚ) : List UplinkRecord :=
  if st.any (fun r => r.ground_station == g && r.satellite == c.1) then st
  else (setup_uplink st g c.1 c.2 (calculate_link_delay c.2) false (okf c.1)).2

/-- controller.py:941-986, the uplink reconciliation of one
`ground_uplinks` group: prune stale records, then fold the candidate list
`(sat, distance)` through `reconcile_step`. -/
def update_ground_uplinks (store : List UplinkRecord) (g : String)
    (cands : List (String × ℚ)) (okf : String → Bool) : List UplinkRecord :=
  cands.foldl (reconcile_step g okf) (prune_uplinks store g (cands.map (fun c => c.1)))

/-- controller.py:729-760 (`provision_network`), one station: its initial
uplink is issued with `distance=1000, delay=10.0, default=True`. -/
def provision_step (okp : String → Bool) (st : List UplinkRecord)
    (p : String × String) : List UplinkRecord :=
  (setup_uplink st p.1 p.2 1000 10 true (okp p.1)).2

/-- controller.py:729-760: each ground station and vessel, paired with its
chosen satellite, gets one initial default uplink; `okp` tells whose RPCs
succeed. -/
def provision_uplinks (store : List UplinkRecord) (stations : List (String × String))
    (okp : String → Bool) : List UplinkRecord :=
  stations.foldl (provision_step okp) store

/-- One `update_positions` reconciliation step for one ground/vessel. -/
structure UpdateOp where
  ground : String
  cands : List (String × ℚ)
  okf : String → Bool

/-- Apply one `update_positions` group. -/
def run_step (st : List UplinkRecord) (op : UpdateOp) : List UplinkRecord :=
  update_ground_uplinks st op.ground op.cands op.okf

/-- Apply a sequence of uplink reconciliation steps. -/
def run_updates (store : List UplinkRecord) (ops : List UpdateOp) : List UplinkRecord :=
  ops.foldl run_step store

/-- The number of records of ground/vessel `g` carrying `default=true`. -/
def default_count (store : List UplinkRecord) (g : String) : ℕ :=
  store.countP (fun r => r.ground_station == g && r.dflt)

/-! ## Proof-side helper sequences for the address allocation -/

/-- The `/30` bases drawn by `k` consecutive counter values starting at
`c`: the arithmetic skeleton shared by `annotate_edges` and
`uplink_pools`. -/
def bases : ℕ → ℕ → List ℕ
  | 0, _ => []
  | k + 1, c => (LINK_BASE + c * 4) :: bases k (c + 1)

/-- The node addresses drawn by `k` steps of the node counter starting at
`c` (step 2): the arithmetic skeleton of `annotate_nodes`. -/
def nbases : ℕ → ℕ → List ℕ
  | 0, _ => []
  | k + 1, c => (NODE_BASE + c) :: nbases k (c + 2)

/-! # Theorems -/

/-! ## C8: the delay formula and its lower bound -/

/-- C8: for every non-negative distance in km, `calculate_link_delay`
returns exactly `round(distance_km / 299792.458 * 1000 + 1.0, 3)`
milliseconds, and this value is always at least 1.0. -/
theorem C8_delay_formula_and_lower_bound (d : ℚ) (hd : 0 ≤ d) :
    calculate_link_delay d = spec_delay_formula d ∧ 1 ≤ calculate_link_delay d := by
  constructor
  · rfl
  · unfold calculate_link_delay round3 SPEED_OF_LIGHT PROCESSING_DELAY
    have hprop : (0:ℚ) ≤ d / (299792458 / 1000) * 1000 := by positivity
    have hz : (1000 : ℤ) ≤ round ((d / (299792458 / 1000) * 1000 + 1) * 1000) := by
      rw [round_eq]
      refine Int.le_floor.mpr ?_
      push_cast
      linarith
    have hq : (1000 : ℚ) ≤ ((round ((d / (299792458 / 1000) * 1000 + 1) * 1000) : ℤ) : ℚ) := by
      exact_mod_cast hz
    rw [le_div_iff₀ (by norm_num : (0:ℚ) < 1000)]
    linarith

/-- C8 witness: the theorem applied at distance 0. -/
theorem C8_witness :
    (0:ℚ) ≤ 0 ∧ (calculate_link_delay 0 = spec_delay_formula 0 ∧ 1 ≤ calculate_link_delay 0) :=
  ⟨le_refl 0, C8_delay_formula_and_lower_bound 0 (le_refl 0)⟩

/-! ## C1: inter-ring link up/down condition -/

/-- The inter-plane status of dynamics_service.py:321-324 is equivalent to a
non-strict latitude bound: `|lat| ≤ inclination - 2`. -/
theorem inter_plane_status_iff (inc : ℚ) (s : Satellite) :
    inter_plane_status inc s = true ↔ |s.lat| ≤ inc - 2 := by
  unfold inter_plane_status
  rw [abs_le]
  constructor
  · intro ht
    by_cases h : s.lat > inc - 2 ∨ s.lat < -inc + 2
    · rw [if_pos h] at ht
      cases ht
    · push_neg at h
      exact ⟨by linarith [h.2], h.1⟩
  · intro hb
    have h' : ¬(s.lat > inc - 2 ∨ s.lat < -inc + 2) := by
      push_neg
      exact ⟨by linarith [hb.2], by linarith [hb.1]⟩
    rw [if_neg h']

/-- C1 counterexample: with inclination 55°, a satellite sitting exactly at
latitude 53° = inclination − 2° keeps its inter-ring link UP
(`link_status = true`) although its absolute latitude is not strictly below
inclination − 2°, so the claimed strict-inequality equivalence is false at
this input. -/
theorem C1_counterexample :
    ¬ (link_status 55 [⟨(r"R0_0"), 53, 0⟩, ⟨(r"R1_0"), 0, 0⟩]
          ⟨(r"R0_0"), (r"R1_0"), true⟩ = true
        ↔ (|(53:ℚ)| < 55 - 2 ∧ |(0:ℚ)| < 55 - 2)) := by
  have hup : link_status 55 [⟨(r"R0_0"), 53, 0⟩, ⟨(r"R1_0"), 0, 0⟩]
      ⟨(r"R0_0"), (r"R1_0"), true⟩ = true := by
    have hf1 : find_sat [⟨(r"R0_0"), 53, 0⟩, ⟨(r"R1_0"), 0, 0⟩] (r"R0_0")
        = some ⟨(r"R0_0"), 53, 0⟩ := by decide
    have hf2 : find_sat [⟨(r"R0_0"), 53, 0⟩, ⟨(r"R1_0"), 0, 0⟩] (r"R1_0")
        = some ⟨(r"R1_0"), 0, 0⟩ := by decide
    simp only [link_status, hf1, hf2]
    rw [if_true, Bool.and_eq_true, inter_plane_status_iff, inter_plane_status_iff]
    norm_num
  have habs : ¬ (|(53:ℚ)| < 55 - 2 ∧ |(0:ℚ)| < 55 - 2) := by
    intro hx
    have h1 := hx.1
    rw [abs_of_nonneg (by norm_num : (0:ℚ) ≤ 53)] at h1
    norm_num at h1
  intro hiff
  exact habs (hiff.mp hup)

/-- C1 amended: an edge between two found satellites with `inter_ring=false`
is always up, and with `inter_ring=true` it is up iff BOTH endpoints'
absolute sub-satellite latitudes are at most (non-strictly) inclination − 2
degrees; in particular a satellite at `|lat| = inclination − 2` exactly
keeps its inter-ring edges up. -/
theorem C1_amended_up_iff (inclination : ℚ) (sats : List Satellite) (e : SatEdge)
    (s1 s2 : Satellite) (h1 : find_sat sats e.node1 = some s1)
    (h2 : find_sat sats e.node2 = some s2) :
    (e.inter_ring = false → link_status inclination sats e = true) ∧
    (e.inter_ring = true →
      (link_status inclination sats e = true ↔
        |s1.lat| ≤ inclination - 2 ∧ |s2.lat| ≤ inclination - 2)) := by
  constructor
  · intro h
    simp [link_status, h]
  · intro h
    simp only [link_status, h, if_true, h1, h2, Bool.and_eq_true]
    rw [inter_plane_status_iff, inter_plane_status_iff]

/-- C1 witness: the amended theorem applied to a concrete inter-ring edge
whose endpoints sit at latitudes 53° and 0° under inclination 55°. -/
theorem C1_witness :
    link_status 55 [⟨(r"R0_0"), 53, 0⟩, ⟨(r"R1_0"), 0, 0⟩]
        ⟨(r"R0_0"), (r"R1_0"), true⟩ = true
      ↔ |(53:ℚ)| ≤ 55 - 2 ∧ |(0:ℚ)| ≤ 55 - 2 :=
  (C1_amended_up_iff 55 [⟨(r"R0_0"), 53, 0⟩, ⟨(r"R1_0"), 0, 0⟩]
      ⟨(r"R0_0"), (r"R1_0"), true⟩ ⟨(r"R0_0"), 53, 0⟩ ⟨(r"R1_0"), 0, 0⟩
      (by decide) (by decide)).2 rfl

/-! ## C5: OSPF area determinism -/

/-- C5 counterexample: across two interpreter runs whose salted string
hashes differ (modelled by two hash functions), the same ground-station
name receives two different areas, so the area is not stable across process
restarts. -/
theorem C5_counterexample :
    ¬ (get_ospf_area (fun _ => 0) (r"G_a") = get_ospf_area (fun _ => 1) (r"G_a")) := by
  decide

set_option maxRecDepth 8000 in
/-- Auxiliary: none of the ground/vessel area strings collides with the
backbone area string. -/
theorem ground_area_ne_backbone :
    ∀ k < 255, 1 ≤ k → ((r"0.0.0.") ++ toString k) ≠ (r"0.0.0.0") := by
  decide

/-- C5 amended: within a single run (a fixed hash function), the area is a
deterministic function of the name: every name not starting with `G_` or
`V_` (in particular every satellite) maps to the backbone area `0.0.0.0`,
and every ground/vessel name maps to a non-zero area `0.0.0.k` with
1 ≤ k ≤ 254.  Stability across process restarts does NOT hold, because the
hash is salted per process (see the counterexample). -/
theorem C5_amended_area_shape (pyhash : String → ℕ) (name : String) :
    (¬(starts_with name (r"G_") = true ∨ starts_with name (r"V_") = true) →
        get_ospf_area pyhash name = (r"0.0.0.0")) ∧
    ((starts_with name (r"G_") = true ∨ starts_with name (r"V_") = true) →
      ∃ k : ℕ, 1 ≤ k ∧ k ≤ 254 ∧
        get_ospf_area pyhash name = (r"0.0.0.") ++ toString k ∧
        get_ospf_area pyhash name ≠ (r"0.0.0.0")) := by
  constructor
  · intro h
    simp [get_ospf_area, h]
  · intro h
    refine ⟨pyhash name % 254 + 1, Nat.le_add_left 1 _, ?_, ?_, ?_⟩
    · have : pyhash name % 254 < 254 := Nat.mod_lt _ (by norm_num)
      omega
    · simp [get_ospf_area, h]
    · simp only [get_ospf_area, h, if_true]
      have hlt : pyhash name % 254 + 1 < 255 := by
        have : pyhash name % 254 < 254 := Nat.mod_lt _ (by norm_num)
        omega
      exact ground_area_ne_backbone _ hlt (Nat.le_add_left 1 _)

/-- C5 witness: the amended theorem applied to a satellite name and a
ground-station name under a concrete hash function. -/
theorem C5_witness :
    get_ospf_area (fun _ => 7) (r"R0_0") = (r"0.0.0.0") ∧
    (∃ k : ℕ, 1 ≤ k ∧ k ≤ 254 ∧
      get_ospf_area (fun _ => 7) (r"G_sea") = (r"0.0.0.") ++ toString k ∧
      get_ospf_area (fun _ => 7) (r"G_sea") ≠ (r"0.0.0.0")) :=
  ⟨(C5_amended_area_shape (fun _ => 7) (r"R0_0")).1 (by decide),
   (C5_amended_area_shape (fun _ => 7) (r"G_sea")).2 (by decide)⟩

/-! ## C4: interface configuration is not idempotent (code bug) -/

/-- C4: the claim (and spec §4.E) requires reconfiguring an
already-configured interface with the same address to return success.  The
code runs `ip addr add` with `check=True`; on the second identical request
the address is already assigned (Linux `File exists`), the raised error is
caught, and the endpoint returns `success=false`.  The state is left
unchanged, but the returned flag contradicts the claim: starting from a
fresh node, the first call succeeds and the second identical call returns
`false`. -/
theorem C4_second_identical_call_fails :
    (configure_interface ⟨[], [], []⟩ (r"G-to-R") (r"10.15.0.1") (r"30")).1 = true ∧
    configure_interface
        ((configure_interface ⟨[], [], []⟩ (r"G-to-R") (r"10.15.0.1") (r"30")).2)
        (r"G-to-R") (r"10.15.0.1") (r"30")
      = (false,
         (configure_interface ⟨[], [], []⟩ (r"G-to-R") (r"10.15.0.1") (r"30")).2) := by
  decide

/-! ## C10: at most one agent uplink per satellite -/

/-- One `config/uplink` request keeps the per-satellite count at most 1. -/
theorem configure_uplink_count_le (st : List AgentUplink) (u : AgentUplink) (s : String)
    (h : st.countP (fun x => x.satellite == s) ≤ 1) :
    (configure_uplink st u).countP (fun x => x.satellite == s) ≤ 1 := by
  unfold configure_uplink
  rw [List.countP_append, List.countP_filter, List.countP_singleton]
  by_cases hc : u.satellite == s
  · have h0 : st.countP
        (fun a => (a.satellite == s) && !(a.satellite == u.satellite)) = 0 := by
      rw [List.countP_eq_zero]
      intro a _ ha
      simp only [Bool.and_eq_true, Bool.not_eq_true'] at ha
      have hus : u.satellite = s := by simpa using hc
      have has : a.satellite = s := by simpa using ha.1
      have : (a.satellite == u.satellite) = true := by
        simp [has, hus]
      rw [this] at ha
      exact absurd ha.2 (by simp)
    simp [h0, hc]
  · have hc' : (u.satellite == s) = false := by
      simpa using hc
    have hle : st.countP (fun a => (a.satellite == s) && !(a.satellite == u.satellite))
        ≤ st.countP (fun x => x.satellite == s) :=
      List.countP_mono_left (fun x _ hx => by
        simp only [Bool.and_eq_true] at hx
        exact hx.1)
    simp only [hc', Bool.false_eq_true, if_false]
    omega

/-- C10: after any sequence of `config/uplink` requests from the initial
empty uplink list, the agent's uplink list holds at most one entry per
satellite name; and a request naming an already-present satellite replaces
the existing entry (the entries for that satellite afterwards are exactly
the new one). -/
theorem C10_at_most_one_uplink_per_satellite (reqs : List AgentUplink) (s : String) :
    (reqs.foldl configure_uplink []).countP (fun x => x.satellite == s) ≤ 1 ∧
    ∀ (st : List AgentUplink) (u : AgentUplink),
      (configure_uplink st u).filter (fun x => x.satellite == u.satellite) = [u] := by
  constructor
  · have general : ∀ (l : List AgentUplink) (st : List AgentUplink),
        st.countP (fun x => x.satellite == s) ≤ 1 →
        (l.foldl configure_uplink st).countP (fun x => x.satellite == s) ≤ 1 := by
      intro l
      induction l with
      | nil => intro st h; simpa using h
      | cons u rest ih =>
          intro st h
          exact ih _ (configure_uplink_count_le st u s h)
    exact general reqs [] (by simp)
  · intro st u
    unfold configure_uplink
    rw [List.filter_append, List.filter_filter]
    have h0 : st.filter (fun a => (a.satellite == u.satellite)
        && !(a.satellite == u.satellite)) = [] := by
      apply List.filter_eq_nil_iff.mpr
      intro a _
      by_cases ha : a.satellite == u.satellite <;> simp [ha]
    simp [h0]

/-! ## C9: uplink candidate condition -/

/-- C9: for a satellite `s` among the evaluated satellites (distinct names,
as in the torus constellation), `calculate_uplinks` emits a candidate
uplink for `(g, s)` iff the coarse `nearby` filter passes (both coordinate
offsets strictly within 20°) and the topocentric elevation strictly exceeds
`min_elevation`; a pair whose elevation equals `min_elevation` exactly is
not a candidate. -/
theorem C9_candidate_iff (min_elevation : ℚ) (alt dist : Station → Satellite → ℚ)
    (sats : List Satellite) (g : Station) (s : Satellite)
    (hs : s ∈ sats) (hnd : (sats.map Satellite.name).Nodup) :
    ((∃ u ∈ station_uplinks min_elevation alt dist sats g, u.sat_node = s.name) ↔
      (nearby g s = true ∧ alt g s > min_elevation)) ∧
    (alt g s = min_elevation →
      ∀ u ∈ station_uplinks min_elevation alt dist sats g, u.sat_node ≠ s.name) := by
  have main : (∃ u ∈ station_uplinks min_elevation alt dist sats g, u.sat_node = s.name) ↔
      (nearby g s = true ∧ alt g s > min_elevation) := by
    unfold station_uplinks
    constructor
    · rintro ⟨u, hu, hname⟩
      rw [List.mem_map] at hu
      obtain ⟨x, hxmem, hxeq⟩ := hu
      rw [List.mem_filter] at hxmem
      have hxname : x.name = s.name := by
        rw [← hxeq] at hname
        exact hname
      have hxs : x = s :=
        List.inj_on_of_nodup_map hnd hxmem.1 hs hxname
      subst hxs
      have := hxmem.2
      simp only [Bool.and_eq_true, decide_eq_true_eq] at this
      exact this
    · rintro ⟨hnear, halt⟩
      refine ⟨⟨s.name, dist g s, calculate_link_delay (dist g s)⟩, ?_, rfl⟩
      rw [List.mem_map]
      refine ⟨s, ?_, rfl⟩
      rw [List.mem_filter]
      exact ⟨hs, by simp [hnear, halt]⟩
  refine ⟨main, ?_⟩
  intro heq u hu hname
  have : nearby g s = true ∧ alt g s > min_elevation := main.mp ⟨u, hu, hname⟩
  rw [heq] at this
  exact lt_irrefl min_elevation this.2

/-- C9 witness: the theorem applied to a single-satellite constellation at
elevation 20° > 15° with the coarse filter passing; and, at elevation
exactly 15°, no candidate is emitted. -/
theorem C9_witness :
    ((∃ u ∈ station_uplinks 15 (fun _ _ => 20) (fun _ _ => 1000)
          [⟨(r"R0_0"), 5, 5⟩] ⟨(r"G_a"), 0, 0⟩,
        u.sat_node = (r"R0_0")) ↔
      (nearby ⟨(r"G_a"), 0, 0⟩ ⟨(r"R0_0"), 5, 5⟩ = true ∧ (20:ℚ) > 15)) ∧
    (∀ u ∈ station_uplinks 15 (fun _ _ => (15:ℚ)) (fun _ _ => 1000)
        [⟨(r"R0_0"), 5, 5⟩] ⟨(r"G_a"), 0, 0⟩,
      u.sat_node ≠ (r"R0_0")) :=
  ⟨(C9_candidate_iff 15 (fun _ _ => 20) (fun _ _ => 1000) [⟨(r"R0_0"), 5, 5⟩]
      ⟨(r"G_a"), 0, 0⟩ ⟨(r"R0_0"), 5, 5⟩ (by simp) (by simp)).1,
   (C9_candidate_iff 15 (fun _ _ => (15:ℚ)) (fun _ _ => 1000) [⟨(r"R0_0"), 5, 5⟩]
      ⟨(r"G_a"), 0, 0⟩ ⟨(r"R0_0"), 5, 5⟩ (by simp) (by simp)).2 rfl⟩

/-! ## C3: address allocation of `annotate_graph` -/

/-- The edge annotation draws exactly the `/30` bases of `bases`. -/
theorem annotate_edges_map_bases (es : List (String × String)) (c : ℕ) :
    (annotate_edges es c).map (fun p => p.2) = bases es.length c := by
  induction es generalizing c with
  | nil => rfl
  | cons e rest ih => simp [annotate_edges, bases, ih]

/-- Splitting lemma for consecutive base runs. -/
theorem bases_add (a b c : ℕ) : bases (a + b) c = bases a c ++ bases b (c + a) := by
  induction a generalizing c with
  | zero => simp [bases]
  | succ n ih =>
      rw [Nat.succ_add, show c + (n + 1) = (c + 1) + n by ring]
      simp only [bases, List.cons_append]
      rw [ih]

/-- The flattened uplink pools draw exactly the `/30` bases of `bases`. -/
theorem uplink_pools_flatten_bases (ns : List GNode) (c : ℕ) :
    ((uplink_pools ns c).map (fun p => p.2)).flatten = bases (4 * ns.length) c := by
  induction ns generalizing c with
  | nil => rfl
  | cons n rest ih =>
      have h4 : 4 * (rest.length + 1) = 4 + 4 * rest.length := by ring
      simp only [uplink_pools, List.map_cons, List.flatten_cons, List.length_cons, h4]
      rw [bases_add]
      simp [bases, ih]

/-- Every base in a run is at least the first one. -/
theorem bases_lb (k : ℕ) : ∀ (c : ℕ), ∀ x ∈ bases k c, LINK_BASE + c * 4 ≤ x := by
  induction k with
  | zero => intro c x hx; cases hx
  | succ n ih =>
      intro c x hx
      simp only [bases, List.mem_cons] at hx
      rcases hx with rfl | hx
      · exact le_refl _
      · have := ih (c + 1) x hx
        omega

/-- Consecutive `/30` bases are spaced at least 4 apart. -/
theorem bases_pairwise (k : ℕ) : ∀ (c : ℕ), (bases k c).Pairwise (fun x y => x + 4 ≤ y) := by
  induction k with
  | zero => intro c; exact List.Pairwise.nil
  | succ n ih =>
      intro c
      refine List.Pairwise.cons ?_ (ih (c + 1))
      intro y hy
      have := bases_lb n (c + 1) y hy
      omega

/-- The node annotation draws exactly the addresses of `nbases`. -/
theorem annotate_nodes_map_addr (ns : List GNode) (c : ℕ) :
    (annotate_nodes ns c).map (fun p => p.2.addr) = nbases ns.length c := by
  induction ns generalizing c with
  | nil => rfl
  | cons n rest ih => simp [annotate_nodes, nbases, ih]

/-- Every node address in a run is at least the first one. -/
theorem nbases_lb (k : ℕ) : ∀ (c : ℕ), ∀ x ∈ nbases k c, NODE_BASE + c ≤ x := by
  induction k with
  | zero => intro c x hx; cases hx
  | succ n ih =>
      intro c x hx
      simp only [nbases, List.mem_cons] at hx
      rcases hx with rfl | hx
      · exact le_refl _
      · have := ih (c + 2) x hx
        omega

/-- Node addresses are strictly increasing along the allocation. -/
theorem nbases_pairwise (k : ℕ) : ∀ (c : ℕ), (nbases k c).Pairwise (fun x y => x < y) := by
  induction k with
  | zero => intro c; exact List.Pairwise.nil
  | succ n ih =>
      intro c
      refine List.Pairwise.cons ?_ (ih (c + 2))
      intro y hy
      have := nbases_lb n (c + 2) y hy
      omega

/-- Every node annotation carries prefix length 31. -/
theorem annotate_nodes_plen (ns : List GNode) (c : ℕ) :
    ∀ p ∈ annotate_nodes ns c, p.2.plen = 31 := by
  induction ns generalizing c with
  | nil => intro p hp; cases hp
  | cons n rest ih =>
      intro p hp
      simp only [annotate_nodes, List.mem_cons] at hp
      rcases hp with rfl | hp
      · rfl
      · exact ih (c + 2) p hp

/-- C3 counterexample: on a one-node graph, `annotate_graph` assigns the
node an interface with prefix length 31 (`IPv4Interface((ip, 31))`,
frr_config_topo.py:28), not the claimed /32. -/
theorem C3_counterexample :
    ¬ (∀ p ∈ (annotate_graph ⟨[⟨(r"R0_0"), NodeType.satellite⟩], []⟩).nodeIps,
        p.2.plen = 32) := by
  decide

/-- C3 amended: after `annotate_graph`, every node carries a loopback
interface with prefix length /31 (not /32) whose address is unique across
nodes, and the `/30` subnets of all edges and of all ground/vessel uplink
pools are pairwise disjoint. -/
theorem C3_amended_unique_loopbacks_disjoint_subnets (g : Graph) :
    ((annotate_graph g).nodeIps.map (fun p => p.2.addr)).Pairwise (fun x y => x ≠ y) ∧
    (∀ p ∈ (annotate_graph g).nodeIps, p.2.plen = 31) ∧
    (((annotate_graph g).edgeNets.map (fun p => p.2)
        ++ ((annotate_graph g).uplinkNets.map (fun p => p.2)).flatten).Pairwise
      disjoint30) := by
  refine ⟨?_, ?_, ?_⟩
  · rw [show (annotate_graph g).nodeIps = annotate_nodes g.nodes 1 from rfl,
        annotate_nodes_map_addr]
    exact (nbases_pairwise g.nodes.length 1).imp (fun h => Nat.ne_of_lt h)
  · exact annotate_nodes_plen g.nodes 1
  · rw [show (annotate_graph g).edgeNets = annotate_edges g.edges 1 from rfl,
        show (annotate_graph g).uplinkNets = uplink_pools
          (g.nodes.filter (fun n => n.typ == NodeType.ground)
            ++ g.nodes.filter (fun n => n.typ == NodeType.vessel))
          (g.edges.length + 1) from rfl,
        annotate_edges_map_bases, uplink_pools_flatten_bases,
        show g.edges.length + 1 = 1 + g.edges.length by ring, ← bases_add]
    exact (bases_pairwise _ 1).imp (fun h => Or.inl h)

/-- C3 witness: the amended theorem applied to a one-node graph, reading
off that node's prefix length. -/
theorem C3_witness :
    ((r"R0_0"), (⟨NODE_BASE + 1, 31⟩ : IfaceAddr)).2.plen = 31 :=
  (C3_amended_unique_loopbacks_disjoint_subnets
      ⟨[⟨(r"R0_0"), NodeType.satellite⟩], []⟩).2.1
    ((r"R0_0"), ⟨NODE_BASE + 1, 31⟩) (by decide)

/-! ## C6: vessel waypoint motion -/

/-- C6 counterexample: a vessel one half-step short of the far endpoint of
a two-waypoint polyline.  The oracle values used are genuine square roots
(`10² = 100`, `(1/2)² = 1/4`, both non-negative).  The step lands within
one `SPEED` of the waypoint `(0, 10)` and the cursor does reverse, but the
position becomes `(0, 10.5)` — it is NOT set exactly to the waypoint, so
the claimed snapping is false at this input. -/
theorem C6_counterexample :
    (fun q : ℚ => if q = 100 then (10 : ℚ) else if q = 1 / 4 then 1 / 2 else 0) 100 ^ 2
        = 100 ∧
    (fun q : ℚ => if q = 100 then (10 : ℚ) else if q = 1 / 4 then 1 / 2 else 0) (1 / 4) ^ 2
        = 1 / 4 ∧
    new_dist (fun q : ℚ => if q = 100 then (10 : ℚ) else if q = 1 / 4 then 1 / 2 else 0)
        ⟨0, 19 / 2, [⟨0, 0⟩, ⟨0, 10⟩], 0, 1, true, 1⟩
      < (⟨0, 19 / 2, [⟨0, 0⟩, ⟨0, 10⟩], 0, 1, true, 1⟩ : MovingStation).SPEED ∧
    (update_position
        (fun q : ℚ => if q = 100 then (10 : ℚ) else if q = 1 / 4 then 1 / 2 else 0)
        ⟨0, 19 / 2, [⟨0, 0⟩, ⟨0, 10⟩], 0, 1, true, 1⟩).moving_forward = false ∧
    (update_position
        (fun q : ℚ => if q = 100 then (10 : ℚ) else if q = 1 / 4 then 1 / 2 else 0)
        ⟨0, 19 / 2, [⟨0, 0⟩, ⟨0, 10⟩], 0, 1, true, 1⟩).lon = 21 / 2 ∧
    (update_position
        (fun q : ℚ => if q = 100 then (10 : ℚ) else if q = 1 / 4 then 1 / 2 else 0)
        ⟨0, 19 / 2, [⟨0, 0⟩, ⟨0, 10⟩], 0, 1, true, 1⟩).lon ≠ (10 : ℚ) := by
  norm_num [new_dist, step_move, update_position, advance_cursor,
    List.getD_cons_zero, List.getD_cons_succ]

/-- C6 amended: for a vessel with at least two waypoints, when a single
`update_position` step brings the position strictly within one `SPEED` of
the next waypoint, the cursor advances — reversing direction when that
waypoint is an endpoint of the polyline (ping-pong) — but the position is
NOT snapped to the waypoint: it is set to the old position plus the
`SPEED`-normalized step vector, generally overshooting the waypoint. -/
theorem C6_amended_advance_and_reverse (rt : ℚ → ℚ) (v : MovingStation)
    (h2 : 2 ≤ v.waypoints.length) (hreach : new_dist rt v < v.SPEED) :
    (v.moving_forward = true → v.next_waypoint_index = v.waypoints.length - 1 →
      update_position rt v =
        { v with lat := v.lat + (step_move rt v).1, lon := v.lon + (step_move rt v).2,
                 moving_forward := false,
                 current_waypoint_index := v.next_waypoint_index,
                 next_waypoint_index := v.next_waypoint_index - 1 }) ∧
    (v.moving_forward = true → v.next_waypoint_index ≠ v.waypoints.length - 1 →
      update_position rt v =
        { v with lat := v.lat + (step_move rt v).1, lon := v.lon + (step_move rt v).2,
                 current_waypoint_index := v.next_waypoint_index,
                 next_waypoint_index := v.next_waypoint_index + 1 }) ∧
    (v.moving_forward = false → v.next_waypoint_index = 0 →
      update_position rt v =
        { v with lat := v.lat + (step_move rt v).1, lon := v.lon + (step_move rt v).2,
                 moving_forward := true,
                 current_waypoint_index := 0,
                 next_waypoint_index := 1 }) ∧
    (v.moving_forward = false → v.next_waypoint_index ≠ 0 →
      update_position rt v =
        { v with lat := v.lat + (step_move rt v).1, lon := v.lon + (step_move rt v).2,
                 current_waypoint_index := v.next_waypoint_index,
                 next_waypoint_index := v.next_waypoint_index - 1 }) := by
  have hnot : ¬ (v.waypoints.length < 2) := not_lt.mpr h2
  refine ⟨?_, ?_, ?_, ?_⟩ <;> intro hf hn <;>
    · unfold update_position advance_cursor
      rw [if_neg hnot, if_pos hreach]
      simp only [hf, hn, beq_iff_eq]
      simp

/-- C6 witness: the amended theorem applied at the same concrete vessel as
the counterexample: the step overshoots the endpoint to longitude 10.5 and
the traversal direction reverses. -/
theorem C6_witness :
    update_position (fun q => if q = 100 then (10 : ℚ) else if q = 1 / 4 then 1 / 2 else 0)
        ⟨0, 19 / 2, [⟨0, 0⟩, ⟨0, 10⟩], 0, 1, true, 1⟩
      = ⟨0 + 0, 19 / 2 + 1, [⟨0, 0⟩, ⟨0, 10⟩], 1, 0, false, 1⟩ := by
  have h := (C6_amended_advance_and_reverse
      (fun q => if q = 100 then (10 : ℚ) else if q = 1 / 4 then 1 / 2 else 0)
      ⟨0, 19 / 2, [⟨0, 0⟩, ⟨0, 10⟩], 0, 1, true, 1⟩
      (by norm_num)
      (by norm_num [new_dist, step_move, List.getD_cons_zero, List.getD_cons_succ])).1
    rfl rfl
  rw [h]
  norm_num [step_move, List.getD_cons_zero, List.getD_cons_succ]

/-! ## C7: RPC failures leave the links store untouched -/

/-- C7: in `setup_link`, if any of the four agent RPCs fails the function
returns failure and the store is unchanged, and the record is inserted
exactly when all four RPCs succeed (given a usable subnet); in
`update_link_state`, if any issued RPC fails (the per-endpoint interface
calls, plus the per-endpoint delay calls when a delay is given) the
function returns failure and the store is unchanged, and in every case a
`false` result means the store is in its pre-call state. -/
theorem C7_rpc_failure_leaves_store (store : List LinkRecord) (node1 node2 : String)
    (delay : ℚ) (hosts : ℕ) (r1 r2 r3 r4 : Bool)
    (ustore : List LinkRecord) (un1 un2 : String) (uup : Bool) (udelay : Option ℚ)
    (i1 d1 i2 d2 : Bool) :
    (¬(r1 = true ∧ r2 = true ∧ r3 = true ∧ r4 = true) →
      setup_link store node1 node2 delay hosts r1 r2 r3 r4 = (false, store)) ∧
    ((setup_link store node1 node2 delay hosts r1 r2 r3 r4).1 = false →
      (setup_link store node1 node2 delay hosts r1 r2 r3 r4).2 = store) ∧
    (2 ≤ hosts → r1 = true → r2 = true → r3 = true → r4 = true →
      setup_link store node1 node2 delay hosts r1 r2 r3 r4
        = (true, store ++ [⟨node1, node2, delay, (r"up")⟩])) ∧
    (¬(i1 = true ∧ (udelay.isSome = true → d1 = true) ∧ i2 = true ∧
        (udelay.isSome = true → d2 = true)) →
      update_link_state ustore un1 un2 uup udelay i1 d1 i2 d2 = (false, ustore)) ∧
    ((update_link_state ustore un1 un2 uup udelay i1 d1 i2 d2).1 = false →
      (update_link_state ustore un1 un2 uup udelay i1 d1 i2 d2).2 = ustore) := by
  refine ⟨?_, ?_, ?_, ?_, ?_⟩
  · intro hfail
    unfold setup_link
    by_cases hh : hosts < 2
    · rw [if_pos hh]
    · rw [if_neg hh]
      cases r1 <;> cases r2 <;> cases r3 <;> cases r4 <;> simp_all
  · intro hfst
    unfold setup_link at hfst ⊢
    by_cases hh : hosts < 2
    · rw [if_pos hh]
    · rw [if_neg hh] at hfst ⊢
      cases r1 <;> cases r2 <;> cases r3 <;> cases r4 <;> simp_all
  · intro hh h1 h2 h3 h4
    subst h1; subst h2; subst h3; subst h4
    unfold setup_link
    rw [if_neg (not_lt.mpr hh)]
    simp
  · intro hfail
    unfold update_link_state
    by_cases hn : (ustore.find? (link_matches un1 un2)).isNone
    · rw [if_pos hn]
    · rw [if_neg hn]
      cases udelay <;> cases i1 <;> cases d1 <;> cases i2 <;> cases d2 <;> simp_all
  · intro hfst
    unfold update_link_state at hfst ⊢
    by_cases hn : (ustore.find? (link_matches un1 un2)).isNone
    · rw [if_pos hn]
    · rw [if_neg hn] at hfst ⊢
      cases udelay <;> cases i1 <;> cases d1 <;> cases i2 <;> cases d2 <;> simp_all

/-- C7 witness: the theorem applied with a failing second RPC of
`setup_link` (store stays empty) and a failing first interface RPC of
`update_link_state` (store keeps its single pre-call record). -/
theorem C7_witness :
    setup_link [] (r"R0_0") (r"R0_1") 1 2 true false true true = (false, []) ∧
    update_link_state [⟨(r"R0_0"), (r"R0_1"), 1, (r"up")⟩] (r"R0_0") (r"R0_1")
        false none false true true true
      = (false, [⟨(r"R0_0"), (r"R0_1"), 1, (r"up")⟩]) :=
  ⟨(C7_rpc_failure_leaves_store [] (r"R0_0") (r"R0_1") 1 2 true false true true
      [] (r"x") (r"y") false none true true true true).1 (by simp),
   (C7_rpc_failure_leaves_store [] (r"x") (r"y") 1 2 true true true true
      [⟨(r"R0_0"), (r"R0_1"), 1, (r"up")⟩] (r"R0_0") (r"R0_1")
      false none false true true true).2.2.2.1 (by simp)⟩

/-! ## C2: the uplink default flag -/

/-- A reconciliation insertion (`default=False`) never changes the number
of default records of any ground/vessel. -/
theorem default_count_setup_false (st : List UplinkRecord) (g sat : String)
    (dist del : ℚ) (ok : Bool) (gj : String) :
    default_count (setup_uplink st g sat dist del false ok).2 gj = default_count st gj := by
  unfold setup_uplink default_count
  cases ok <;> simp

/-- One reconciliation candidate never increases any default count. -/
theorem default_count_reconcile_step (g : String) (okf : String → Bool)
    (st : List UplinkRecord) (c : String × ℚ) (gj : String) :
    default_count (reconcile_step g okf st c) gj ≤ default_count st gj := by
  unfold reconcile_step
  by_cases hany : st.any (fun r => r.ground_station == g && r.satellite == c.1)
  · rw [if_pos hany]
  · rw [if_neg hany, default_count_setup_false]

/-- Folding the candidates never increases any default count. -/
theorem default_count_foldl_reconcile (g : String) (okf : String → Bool) (gj : String) :
    ∀ (cs : List (String × ℚ)) (st : List UplinkRecord),
      default_count (cs.foldl (reconcile_step g okf) st) gj ≤ default_count st gj := by
  intro cs
  induction cs with
  | nil => intro st; exact le_refl _
  | cons c rest ih =>
      intro st
      exact (ih _).trans (default_count_reconcile_step g okf st c gj)

/-- One `update_positions` group never increases any default count. -/
theorem default_count_update_le (st : List UplinkRecord) (g : String)
    (cands : List (String × ℚ)) (okf : String → Bool) (gj : String) :
    default_count (update_ground_uplinks st g cands okf) gj ≤ default_count st gj := by
  unfold update_ground_uplinks
  refine (default_count_foldl_reconcile g okf gj cands _).trans ?_
  unfold default_count prune_uplinks
  exact (List.filter_sublist st).countP_le _

/-- Running updates never increases any default count. -/
theorem default_count_run_le (ops : List UpdateOp) (gj : String) :
    ∀ (st : List UplinkRecord),
      default_count (run_updates st ops) gj ≤ default_count st gj := by
  induction ops with
  | nil => intro st; exact le_refl _
  | cons op rest ih =>
      intro st
      exact (ih _).trans (default_count_update_le st op.ground op.cands op.okf gj)

/-- Provisioning adds at most one default record per occurrence of the
ground/vessel in the provisioning list. -/
theorem default_count_provision (okp : String → Bool) (gj : String) :
    ∀ (provs : List (String × String)) (st : List UplinkRecord),
      default_count (provs.foldl (provision_step okp) st) gj
        ≤ default_count st gj + (provs.map (fun p => p.1)).count gj := by
  intro provs
  induction provs with
  | nil => intro st; simp
  | cons p rest ih =>
      intro st
      refine (ih _).trans ?_
      have hstep : default_count (provision_step okp st p) gj
          ≤ default_count st gj + if p.1 = gj then 1 else 0 := by
        unfold provision_step setup_uplink default_count
        cases hok : okp p.1
        · simp
        · rw [if_pos rfl]
          rw [List.countP_append, List.countP_singleton]
          by_cases hpg : p.1 = gj
          · simp [hpg]
          · have : ((⟨p.1, p.2, 1000, 10, true, (r"up")⟩ : UplinkRecord).ground_station == gj)
                = false := by
              simpa using hpg
            simp [this, hpg]
      rw [List.map_cons, List.count_cons]
      by_cases hpg : p.1 = gj
      · rw [if_pos hpg] at hstep
        have hbeq : (p.1 == gj) = true := by simpa using hpg
        rw [hbeq, if_pos rfl]
        omega
      · rw [if_neg hpg, add_zero] at hstep
        have hbeq : (p.1 == gj) = false := by simpa using hpg
        rw [hbeq]
        simp only [Bool.false_eq_true, if_false, add_zero]
        omega

/-- Membership provenance through provisioning: every record either was in
the starting store or names a provisioned (ground, satellite) pair. -/
theorem mem_provision (okp : String → Bool) :
    ∀ (provs : List (String × String)) (st : List UplinkRecord)
      (rec : UplinkRecord), rec ∈ provs.foldl (provision_step okp) st →
      rec ∈ st ∨ (rec.ground_station, rec.satellite) ∈ provs := by
  intro provs
  induction provs with
  | nil => intro st rec h; exact Or.inl h
  | cons p rest ih =>
      intro st rec h
      rcases ih _ rec h with hmem | hmem
      · unfold provision_step setup_uplink at hmem
        by_cases hok : okp p.1 = true
        · rw [if_pos hok] at hmem
          rcases List.mem_append.mp hmem with h1 | h1
          · exact Or.inl h1
          · have hrec : rec = ⟨p.1, p.2, 1000, 10, true, (r"up")⟩ := by
              simpa using h1
            rw [hrec]
            exact Or.inr (by simp)
        · rw [if_neg hok] at hmem
          exact Or.inl hmem
      · exact Or.inr (List.mem_cons_of_mem _ hmem)

/-- Membership provenance through one reconciliation insertion. -/
theorem mem_setup_false (st : List UplinkRecord) (g sat : String) (dist del : ℚ)
    (ok : Bool) (rec : UplinkRecord)
    (h : rec ∈ (setup_uplink st g sat dist del false ok).2) :
    rec ∈ st ∨ rec.dflt = false := by
  unfold setup_uplink at h
  by_cases hok : ok = true
  · rw [if_pos hok] at h
    rcases List.mem_append.mp h with h1 | h1
    · exact Or.inl h1
    · have hrec : rec = ⟨g, sat, dist, del, false, (r"up")⟩ := by
        simpa using h1
      rw [hrec]
      exact Or.inr rfl
  · rw [if_neg hok] at h
    exact Or.inl h

/-- Membership provenance through one `update_positions` group: every
record either survives from the pre-call store or was created non-default. -/
theorem mem_update_ground_uplinks (st : List UplinkRecord) (g : String)
    (cands : List (String × ℚ)) (okf : String → Bool) (rec : UplinkRecord)
    (h : rec ∈ update_ground_uplinks st g cands okf) :
    rec ∈ st ∨ rec.dflt = false := by
  unfold update_ground_uplinks at h
  have general : ∀ (cs : List (String × ℚ)) (st0 : List UplinkRecord),
      rec ∈ cs.foldl (reconcile_step g okf) st0 → rec ∈ st0 ∨ rec.dflt = false := by
    intro cs
    induction cs with
    | nil => intro st0 h0; exact Or.inl h0
    | cons c rest ih =>
        intro st0 h0
        rcases ih _ h0 with h1 | h1
        · unfold reconcile_step at h1
          by_cases hany : st0.any (fun r => r.ground_station == g && r.satellite == c.1)
          · rw [if_pos hany] at h1
            exact Or.inl h1
          · rw [if_neg hany] at h1
            exact mem_setup_false st0 g c.1 c.2 (calculate_link_delay c.2) (okf c.1) rec h1
        · exact Or.inr h1
  rcases general cands _ h with h1 | h1
  · exact Or.inl (List.mem_of_mem_filter h1)
  · exact Or.inr h1

/-- Membership provenance through a run of updates. -/
theorem mem_run_updates (ops : List UpdateOp) :
    ∀ (st : List UplinkRecord) (rec : UplinkRecord),
      rec ∈ run_updates st ops → rec ∈ st ∨ rec.dflt = false := by
  induction ops with
  | nil => intro st rec h; exact Or.inl h
  | cons op rest ih =>
      intro st rec h
      rcases ih _ rec h with h1 | h1
      · exact mem_update_ground_uplinks st op.ground op.cands op.okf rec h1
      · exact Or.inr h1

/-- C2 counterexample: handover.  A ground station is provisioned with a
default uplink to satellite `RA`; the next reconciliation replaces it by an
uplink to `RB`.  The new record exists but carries `default=false` — the
flag does NOT transfer, refuting the claim's transfer clause (after the
handover no record of the station is default at all). -/
theorem C2_counterexample :
    (∃ u ∈ update_ground_uplinks
        (provision_uplinks [] [((r"G_a"), (r"RA"))] (fun _ => true))
        (r"G_a") [((r"RB"), 1000)] (fun _ => true),
      u.satellite = (r"RB")) ∧
    (∀ u ∈ update_ground_uplinks
        (provision_uplinks [] [((r"G_a"), (r"RA"))] (fun _ => true))
        (r"G_a") [((r"RB"), 1000)] (fun _ => true),
      u.dflt = false) := by
  have hprov : provision_uplinks [] [((r"G_a"), (r"RA"))] (fun _ => true)
      = [⟨(r"G_a"), (r"RA"), 1000, 10, true, (r"up")⟩] := by
    simp [provision_uplinks, provision_step, setup_uplink]
  rw [hprov]
  have hupd : update_ground_uplinks [⟨(r"G_a"), (r"RA"), 1000, 10, true, (r"up")⟩]
      (r"G_a") [((r"RB"), 1000)] (fun _ => true)
      = [⟨(r"G_a"), (r"RB"), 1000, calculate_link_delay 1000, false, (r"up")⟩] := by
    simp [update_ground_uplinks, prune_uplinks, reconcile_step, setup_uplink]
  rw [hupd]
  simp

/-- C2 amended: within a single controller run, each ground/vessel's
provisioning uplink is issued with `default=true`, every uplink created
during reconciliation is non-default (every default record in any reachable
store traces back to the provisioning list), and at most one record per
ground/vessel carries `default=true`; on handover the newly created record
has `default=false`, so the flag does not transfer. -/
theorem C2_amended_at_most_one_default (provs : List (String × String))
    (okp : String → Bool) (hnd : (provs.map (fun p => p.1)).Nodup)
    (ops : List UpdateOp) (g : String) :
    default_count (run_updates (provision_uplinks [] provs okp) ops) g ≤ 1 ∧
    (∀ rec ∈ run_updates (provision_uplinks [] provs okp) ops,
      rec.dflt = true → (rec.ground_station, rec.satellite) ∈ provs) := by
  constructor
  · refine (default_count_run_le ops g _).trans ?_
    refine (default_count_provision okp g provs []).trans ?_
    have hcount : (provs.map (fun p => p.1)).count g ≤ 1 :=
      List.nodup_iff_count_le_one.mp hnd g
    simpa [default_count] using hcount
  · intro rec hmem hdf
    rcases mem_run_updates ops _ rec hmem with h1 | h1
    · rcases mem_provision okp provs [] rec h1 with h2 | h2
      · cases h2
      · exact h2
    · rw [h1] at hdf
      cases hdf

/-- C2 witness: the amended theorem applied to the handover scenario of the
counterexample: one provisioned station, one reconciliation replacing its
satellite; at most one default record remains. -/
theorem C2_witness :
    default_count (run_updates
        (provision_uplinks [] [((r"G_a"), (r"RA"))] (fun _ => true))
        [⟨(r"G_a"), [((r"RB"), 1000)], fun _ => true⟩]) (r"G_a") ≤ 1 :=
  (C2_amended_at_most_one_default [((r"G_a"), (r"RA"))] (fun _ => true) (by simp)
      [⟨(r"G_a"), [((r"RB"), 1000)], fun _ => true⟩] (r"G_a")).1

end SatNet
